import Mathlib

/-
Verification of the capybara-vibing player controller.

The repository contains two full variants of the controller class
(src/src/Player.js, embedded below in namespace PlayerJS, and
src/unnamed/part_001, embedded in namespace Part001) plus the per-frame
driver animate() of src/src/main.js.  Both variants are embedded as pure
transition functions over exact arithmetic:

  * scalar body readings (velocities, positions, delta times) are rationals;
  * the horizontal velocity written after normalisation lives in the subfield
    ℚ(√2) of the reals, represented exactly by the type Q2 below, since the
    only square roots the controller ever takes are of 0, 1 and 2 (squared
    lengths of the raw intention vector whose components are -1, 0 or 1);
  * the effects on the physics body and the animation mixer
    (setLinvel, applyImpulse, mixer.update, cross-fades, play, console.warn)
    are recorded in an ordered event list, in source execution order;
  * the physics body itself is an external collaborator: its per-tick
    readings (linvel(), translation()) are oracle inputs to update.

Abstractions (documented, claim-irrelevant): the visual rotation of the
container (lookAt / atan2) is not modelled; the mixer is modelled as a clock
(mixerTime) advanced by mixer.update plus a mixerAdvance event; per-action
playback time changes only when the controller itself resets an action;
THREE.js action objects are identified by their (unique, lowercased) key in
the actions map, so comparing keys models JS object identity comparison.
-/

namespace Capy

/-- Element a + b * sqrt 2 of the subfield ℚ(√2), represented exactly. -/
structure Q2 where
  a : ℚ
  b : ℚ
deriving DecidableEq

instance : Zero Q2 := ⟨⟨0, 0⟩⟩

instance : One Q2 := ⟨⟨1, 0⟩⟩

instance : Add Q2 := ⟨fun x y => ⟨x.a + y.a, x.b + y.b⟩⟩

instance : Neg Q2 := ⟨fun x => ⟨-x.a, -x.b⟩⟩

instance : Mul Q2 := ⟨fun x y => ⟨x.a * y.a + 2 * x.b * y.b, x.a * y.b + x.b * y.a⟩⟩

/-- Embedding of ℚ into ℚ(√2). -/
def Q2.ofRat (q : ℚ) : Q2 := ⟨q, 0⟩

/-- Multiplicative inverse in ℚ(√2): (a + b√2)⁻¹ = (a - b√2)/(a² - 2b²);
ℚ division by zero yields 0, so the inverse of 0 is the junk value 0. -/
def Q2.inv (x : Q2) : Q2 :=
  let d := x.a * x.a - 2 * x.b * x.b
  ⟨x.a / d, -x.b / d⟩

instance : Inv Q2 := ⟨Q2.inv⟩

instance : Div Q2 := ⟨fun x y => x * y⁻¹⟩

/-- Exact square root of a natural number, when it is a perfect square. -/
def natSqrtQ (n : ℕ) : Option ℕ :=
  (List.range (n + 1)).find? (fun k => k * k = n)

/-- Exact square root of a nonnegative rational, when it is a rational square. -/
def ratSqrtQ (q : ℚ) : Option ℚ :=
  if q < 0 then none
  else
    match natSqrtQ q.num.toNat, natSqrtQ q.den with
    | some u, some v => some ((u : ℚ) / (v : ℚ))
    | _, _ => none

/-- Model of Math.sqrt on the values the controller can produce: the exact
square root inside ℚ(√2) of a rational of the form r² or 2·r² (r : ℚ); junk 0
otherwise.  The controller only ever takes square roots of 0, 1 and 2. -/
def q2sqrt (q : ℚ) : Q2 :=
  match ratSqrtQ q with
  | some r => ⟨r, 0⟩
  | none =>
      match ratSqrtQ (q / 2) with
      | some r => ⟨0, r⟩
      | none => 0

/-- Containment of a character pattern in a character list, as in JavaScript
String.prototype.includes (the empty pattern is contained in every string). -/
def containsChars (pat : List Char) : List Char → Bool
  | [] => pat.isEmpty
  | c :: cs => pat.isPrefixOf (c :: cs) || containsChars pat cs

/-- JavaScript key.includes(name): name occurs as a substring of key. -/
def strIncludes (key pat : String) : Bool :=
  containsChars pat.toList key.toList

/-- Predicate used by both variants to look an animation up:
key === name || key.includes(name)  (src/src/Player.js line 84,
src/unnamed/part_001 line 130). -/
def nameMatches (key pat : String) : Bool :=
  key == pat || strIncludes key pat

/-- State of one THREE.js AnimationAction as far as the controller touches it:
playback time (reset to 0 by action.reset()), whether play() has been called,
and the effective weight. -/
structure ActionRec where
  time : ℚ
  playing : Bool
  weight : ℚ
deriving DecidableEq

/-- Observable effects of one controller call, in source execution order. -/
inductive Ev where
  | setLinvel (x y z : Q2)
  | impulse (x y z : ℚ)
  | mixerAdvance (d : ℚ)
  | crossFade (src dst : String) (dur : ℚ)
  | play (name : String)
  | warn (name : String)
deriving DecidableEq

/-- Input flags of the controller (this.keys). -/
structure Keys where
  w : Bool
  a : Bool
  s : Bool
  d : Bool
  space : Bool
deriving DecidableEq

/-- Mutable state of the controller that the claims are about.  The actions
map is an insertion-ordered association list with unique keys (JavaScript
object property order); current is the key of this.currentAction (none for
null); containerX/Y/Z is the visual container position. -/
structure PState where
  keys : Keys
  isMoving : Bool
  isJumping : Bool
  actions : List (String × ActionRec)
  current : Option String
  mixerTime : ℚ
  containerX : ℚ
  containerY : ℚ
  containerZ : ℚ
deriving DecidableEq

/-- Per-tick readings of the external physics body: this.body.linvel() and
this.body.translation(). -/
structure BodyIn where
  velX : ℚ
  velY : ℚ
  velZ : ℚ
  posX : ℚ
  posY : ℚ
  posZ : ℚ
deriving DecidableEq

/-- Exact property lookup this.actions[name]. -/
def lookupAction (acts : List (String × ActionRec)) (name : String) : Option ActionRec :=
  match acts.find? (fun p => p.1 == name) with
  | some p => some p.2
  | none => none

/-- Name resolution of the transition helper:
Object.keys(this.actions).find(key => key === name || key.includes(name)).
Returns the first key in insertion order that equals the requested name or
contains it as a substring. -/
def resolveName (acts : List (String × ActionRec)) (name : String) : Option String :=
  (acts.map Prod.fst).find? (fun key => nameMatches key name)

/-- Replace the record stored under an exact key (used for action.reset()
etc.; leaves the insertion order untouched). -/
def mapAction (acts : List (String × ActionRec)) (name : String)
    (f : ActionRec → ActionRec) : List (String × ActionRec) :=
  acts.map (fun p => if p.1 = name then (p.1, f p.2) else p)

/-- One this.mixer.update(delta) call: the mixer clock advances by delta.
(The per-action playback advance that THREE.js performs internally is
abstracted into this clock.) -/
def mixerStep (s : PState) (δ : ℚ) : PState :=
  { s with mixerTime := s.mixerTime + δ }

/-- Raw movement intention from the directional flags
(both variants, identical code):
if w then z -= 1; if s then z += 1; if a then x -= 1; if d then x += 1. -/
def moveRaw (k : Keys) : ℚ × ℚ :=
  let z1 := if k.w then (0:ℚ) - 1 else 0
  let z2 := if k.s then z1 + 1 else z1
  let x1 := if k.a then (0:ℚ) - 1 else 0
  let x2 := if k.d then x1 + 1 else x1
  (x2, z2)

/-- Vector length of the horizontal movement vector (x, 0, z), as computed by
THREE.Vector3.length / Math.sqrt(x*x + z*z). -/
def vecLen (x z : ℚ) : Q2 :=
  q2sqrt (x * x + z * z)

/-- THREE.Vector3.normalize on (x, 0, z): divide by the length, with the
library's guard replacing a zero length by 1. -/
def normVec (x z : ℚ) : Q2 × Q2 :=
  let len := vecLen x z
  let l := if len = 0 then 1 else len
  (Q2.ofRat x / l, Q2.ofRat z / l)

/-- movement.normalize().multiplyScalar(speed): normalise first, then scale. -/
def normalizeScale (x z speed : ℚ) : Q2 × Q2 :=
  let n := normVec x z
  (n.1 * Q2.ofRat speed, n.2 * Q2.ofRat speed)

/-- Horizontal (x, z) velocity written by setLinvel in src/src/Player.js:
the raw vector, normalised and scaled by moveSpeed = 5 exactly when
movement.length() > 0. -/
def writtenXZJS (k : Keys) : Q2 × Q2 :=
  let m := moveRaw k
  if decide (¬ vecLen m.1 m.2 = 0) = true then normalizeScale m.1 m.2 5
  else (Q2.ofRat m.1, Q2.ofRat m.2)

/-- Raw movement vector of src/unnamed/part_001 after its diagonal
normalisation step: divided by Math.sqrt(x² + z²) exactly when both axes are
non-zero (lines 196-201). -/
def p1Norm (k : Keys) : Q2 × Q2 :=
  let m := moveRaw k
  if ¬ m.1 = 0 ∧ ¬ m.2 = 0 then
    (Q2.ofRat m.1 / q2sqrt (m.1 * m.1 + m.2 * m.2),
     Q2.ofRat m.2 / q2sqrt (m.1 * m.1 + m.2 * m.2))
  else (Q2.ofRat m.1, Q2.ofRat m.2)

/-- Movement test of src/unnamed/part_001 line 204: the (normalised) vector
is non-zero on some axis. -/
def p1Moving (k : Keys) : Bool :=
  decide (¬ (p1Norm k).1 = 0 ∨ ¬ (p1Norm k).2 = 0)

/-- Horizontal (x, z) velocity written by setLinvel in src/unnamed/part_001:
the (diagonal-normalised) vector scaled by moveSpeed = 5 in the moving
branch, and (0, 0) otherwise. -/
def writtenXZP1 (k : Keys) : Q2 × Q2 :=
  if p1Moving k = true then
    ((p1Norm k).1 * Q2.ofRat 5, (p1Norm k).2 * Q2.ofRat 5)
  else (0, 0)

/-- Shared tail of playAnimation once the requested name resolved to a key
(src/src/Player.js lines 92-106, src/unnamed/part_001 lines 142-156):
no-op when the resolved action is already current; otherwise, when a current
action exists, action.reset() (time := 0), setEffectiveWeight(1),
crossFadeFrom(current, dur, true); in every non-no-op case action.play() and
the action becomes current. -/
def playFound (s : PState) (key : String) (dur : ℚ) : PState × List Ev :=
  if s.current = some key then (s, [])
  else
    match s.current with
    | some cur =>
        (⟨s.keys, s.isMoving, s.isJumping,
          mapAction s.actions key (fun _ => ⟨0, true, 1⟩),
          some key, s.mixerTime, s.containerX, s.containerY, s.containerZ⟩,
         [Ev.crossFade cur key dur, Ev.play key])
    | none =>
        (⟨s.keys, s.isMoving, s.isJumping,
          mapAction s.actions key (fun r => ⟨r.time, true, r.weight⟩),
          some key, s.mixerTime, s.containerX, s.containerY, s.containerZ⟩,
         [Ev.play key])

namespace PlayerJS

/-- playAnimation of src/src/Player.js (lines 81-106): resolve the name; on
failure only console.warn and return; otherwise hand over to the shared
playFound logic. -/
def playAnimation (s : PState) (name : String) (dur : ℚ) : PState × List Ev :=
  match resolveName s.actions name with
  | none => (s, [Ev.warn name])
  | some key => playFound s key dur

/-- updateAnimationState of src/src/Player.js (lines 181-225).  Each action
lookup is guarded by an exact-key presence test (this.actions['jump'] etc.). -/
def updateAnimationState (s : PState) (wasMoving wasJumping : Bool) :
    PState × List Ev :=
  if s.isJumping = true ∧ wasJumping = false then
    if (lookupAction s.actions "jump").isSome = true then
      playAnimation s "jump" (3/10)
    else (s, [])
  else if s.isJumping = false ∧ wasJumping = true then
    if s.isMoving = true then
      if (lookupAction s.actions "run").isSome = true then
        playAnimation s "run" (3/10)
      else if (lookupAction s.actions "walk").isSome = true then
        playAnimation s "walk" (3/10)
      else (s, [])
    else
      if (lookupAction s.actions "idle").isSome = true then
        playAnimation s "idle" (3/10)
      else (s, [])
  else if s.isMoving = true ∧ wasMoving = false then
    if (lookupAction s.actions "run").isSome = true then
      playAnimation s "run" (3/10)
    else if (lookupAction s.actions "walk").isSome = true then
      playAnimation s "walk" (3/10)
    else (s, [])
  else if s.isMoving = false ∧ wasMoving = true then
    if (lookupAction s.actions "idle").isSome = true then
      playAnimation s "idle" (3/10)
    else (s, [])
  else (s, [])

/-- update of src/src/Player.js (lines 128-179), in source order:
mixer.update(delta); read linvel; build the raw WASD vector; recompute
isMoving from movement.length() > 0 and isJumping from |vy| > 0.5;
updateAnimationState(wasMoving, wasJumping); if moving,
normalize().multiplyScalar(moveSpeed = 5) (the lookAt rotation is not
modelled); setLinvel(movement.x, vy, movement.z); if (space and |vy| < 0.1)
applyImpulse(0, jumpForce = 5, 0), clear the space flag, and play the jump
animation when an exact jump action exists; finally mirror translation()
into the container position. -/
def update (s : PState) (δ : ℚ) (inp : BodyIn) : PState × List Ev :=
  let s1 := mixerStep s δ
  let m := moveRaw s.keys
  let wasMoving := s.isMoving
  let movingNow := decide (¬ vecLen m.1 m.2 = 0)
  let wasJumping := s.isJumping
  let jumpingNow := decide ((1:ℚ)/2 < |inp.velY|)
  let s2 : PState :=
    ⟨s1.keys, movingNow, jumpingNow, s1.actions, s1.current, s1.mixerTime,
     s1.containerX, s1.containerY, s1.containerZ⟩
  let r1 := updateAnimationState s2 wasMoving wasJumping
  let v := if movingNow = true then normalizeScale m.1 m.2 5
           else (Q2.ofRat m.1, Q2.ofRat m.2)
  let r2 :=
    if r1.1.keys.space = true ∧ |inp.velY| < 1/10 then
      let sJ : PState :=
        ⟨⟨r1.1.keys.w, r1.1.keys.a, r1.1.keys.s, r1.1.keys.d, false⟩,
         r1.1.isMoving, r1.1.isJumping, r1.1.actions, r1.1.current,
         r1.1.mixerTime, r1.1.containerX, r1.1.containerY, r1.1.containerZ⟩
      let rJ := if (lookupAction sJ.actions "jump").isSome = true then
                  playAnimation sJ "jump" (3/10)
                else (sJ, [])
      (rJ.1, Ev.impulse 0 5 0 :: rJ.2)
    else (r1.1, [])
  let s3 : PState :=
    ⟨r2.1.keys, r2.1.isMoving, r2.1.isJumping, r2.1.actions, r2.1.current,
     r2.1.mixerTime, inp.posX, inp.posY, inp.posZ⟩
  (s3, Ev.mixerAdvance δ ::
        (r1.2 ++ (Ev.setLinvel v.1 (Q2.ofRat inp.velY) v.2 :: r2.2)))

/-- this.actions[name] = this.mixer.clipAction(clip) with
setEffectiveTimeScale(1) and setEffectiveWeight(1): JavaScript property
assignment keeps the position of an existing key and appends a new one. -/
def insertAction (acts : List (String × ActionRec)) (name : String) :
    List (String × ActionRec) :=
  if (lookupAction acts name).isSome = true then
    mapAction acts name (fun _ => ⟨0, false, 1⟩)
  else acts ++ [(name, ⟨0, false, 1⟩)]

/-- setupAnimations of src/src/Player.js (lines 54-79): register every clip
under its lowercased name (loop-mode configuration is not modelled), then
play idle if present, else the first clip's name. -/
def setupAnimations (s : PState) (clipNames : List String) : PState × List Ev :=
  let acts := clipNames.foldl (fun a n => insertAction a n.toLower) s.actions
  let s1 : PState :=
    ⟨s.keys, s.isMoving, s.isJumping, acts, s.current, s.mixerTime,
     s.containerX, s.containerY, s.containerZ⟩
  if (lookupAction s1.actions "idle").isSome = true then
    playAnimation s1 "idle" (3/10)
  else
    match clipNames with
    | n :: _ => playAnimation s1 n.toLower (3/10)
    | [] => (s1, [])

/-- Constructor of src/src/Player.js (lines 4-52) restricted to the fields
the claims are about: empty actions map, no current action, all flags false,
container at (0, 1, 0); setupAnimations runs only when the clip list is
non-empty. -/
def initState (clipNames : List String) : PState :=
  let base : PState :=
    ⟨⟨false, false, false, false, false⟩, false, false, [], none, 0, 0, 1, 0⟩
  if clipNames = [] then base else (setupAnimations base clipNames).1

/-- onKeyDown of src/src/Player.js (lines 108-116). -/
def onKeyDown (s : PState) (key : String) : PState :=
  let k := key.toLower
  let ks := s.keys
  let ks1 : Keys :=
    if k = "w" then ⟨true, ks.a, ks.s, ks.d, ks.space⟩
    else if k = "a" then ⟨ks.w, true, ks.s, ks.d, ks.space⟩
    else if k = "s" then ⟨ks.w, ks.a, true, ks.d, ks.space⟩
    else if k = "d" then ⟨ks.w, ks.a, ks.s, true, ks.space⟩
    else if k = " " then ⟨ks.w, ks.a, ks.s, ks.d, true⟩
    else ks
  ⟨ks1, s.isMoving, s.isJumping, s.actions, s.current, s.mixerTime,
   s.containerX, s.containerY, s.containerZ⟩

/-- onKeyUp of src/src/Player.js (lines 118-126). -/
def onKeyUp (s : PState) (key : String) : PState :=
  let k := key.toLower
  let ks := s.keys
  let ks1 : Keys :=
    if k = "w" then ⟨false, ks.a, ks.s, ks.d, ks.space⟩
    else if k = "a" then ⟨ks.w, false, ks.s, ks.d, ks.space⟩
    else if k = "s" then ⟨ks.w, ks.a, false, ks.d, ks.space⟩
    else if k = "d" then ⟨ks.w, ks.a, ks.s, false, ks.space⟩
    else if k = " " then ⟨ks.w, ks.a, ks.s, ks.d, false⟩
    else ks
  ⟨ks1, s.isMoving, s.isJumping, s.actions, s.current, s.mixerTime,
   s.containerX, s.containerY, s.containerZ⟩

/-- Run a sequence of ticks (delta plus body readings per tick) with no
keyboard events in between, concatenating the emitted events. -/
def run (s : PState) : List (ℚ × BodyIn) → PState × List Ev
  | [] => (s, [])
  | t :: rest =>
      let r := update s t.1 t.2
      let r2 := run r.1 rest
      (r2.1, r.2 ++ r2.2)

end PlayerJS

/-- One frame of the animate() loop of src/src/main.js (lines 150-183):
physicsWorld.update() (external), player.update(delta), updateCamera()
(external), and then — in addition to the mixer advance already performed
inside player.update — player.mixer.update(delta) once more. -/
def animateTick (s : PState) (δ : ℚ) (inp : BodyIn) : PState × List Ev :=
  let r := PlayerJS.update s δ inp
  (mixerStep r.1 δ, r.2 ++ [Ev.mixerAdvance δ])

namespace Part001

/-- playAnimation of src/unnamed/part_001 (lines 127-156): resolve the name;
on failure console.warn and fall back to this.playAnimation('idle') whenever
an exact idle action exists and is not already current (the recursive call is
unfolded once here; it always finds a key because the guard checked one);
otherwise the shared playFound logic. -/
def playAnimation (s : PState) (name : String) (dur : ℚ) : PState × List Ev :=
  match resolveName s.actions name with
  | some key => playFound s key dur
  | none =>
      if (lookupAction s.actions "idle").isSome = true ∧ ¬ s.current = some "idle" then
        match resolveName s.actions "idle" with
        | some k =>
            let r := playFound s k (3/10)
            (r.1, Ev.warn name :: r.2)
        | none => (s, [Ev.warn name])
      else (s, [Ev.warn name])

/-- updateAnimationState of src/unnamed/part_001 (lines 247-266): no guards;
landing while moving always requests walk, never run. -/
def updateAnimationState (s : PState) (wasMoving wasJumping : Bool) :
    PState × List Ev :=
  if s.isJumping = true ∧ wasJumping = false then
    playAnimation s "jump" (3/10)
  else if s.isJumping = false ∧ wasJumping = true then
    if s.isMoving = true then playAnimation s "walk" (3/10)
    else playAnimation s "idle" (3/10)
  else if s.isMoving = true ∧ wasMoving = false then
    playAnimation s "walk" (3/10)
  else if s.isMoving = false ∧ wasMoving = true then
    playAnimation s "idle" (3/10)
  else (s, [])

/-- update of src/unnamed/part_001 (lines 176-245), in source order: save
wasMoving/wasJumping; reset isMoving; read linvel; build the raw vector;
normalise only when both axes are non-zero; if the (normalised) vector is
non-zero set isMoving, rotate (not modelled) and
setLinvel(x*moveSpeed, vy, z*moveSpeed), else setLinvel(0, vy, 0);
isOnGround := |vy| < 0.1 and y < 1.1; if grounded and space is held,
applyImpulse(0, 5, 0) and set isJumping (the space flag is NOT cleared),
else if grounded clear isJumping; mirror translation() into the container;
updateAnimationState(wasMoving, wasJumping); mixer.update(delta). -/
def update (s : PState) (δ : ℚ) (inp : BodyIn) : PState × List Ev :=
  let wasMoving := s.isMoving
  let wasJumping := s.isJumping
  let n := p1Norm s.keys
  let moving := p1Moving s.keys
  let e1 := if moving = true then
              [Ev.setLinvel (n.1 * Q2.ofRat 5) (Q2.ofRat inp.velY) (n.2 * Q2.ofRat 5)]
            else
              [Ev.setLinvel 0 (Q2.ofRat inp.velY) 0]
  let onGround := decide (|inp.velY| < 1/10 ∧ inp.posY < 11/10)
  let jumped := onGround && s.keys.space
  let jumping := if jumped = true then true
                 else if onGround = true then false
                 else s.isJumping
  let e2 := if jumped = true then [Ev.impulse 0 5 0] else []
  let s1 : PState :=
    ⟨s.keys, moving, jumping, s.actions, s.current, s.mixerTime,
     inp.posX, inp.posY, inp.posZ⟩
  let r := updateAnimationState s1 wasMoving wasJumping
  (mixerStep r.1 δ, e1 ++ e2 ++ r.2 ++ [Ev.mixerAdvance δ])

/-- Run a sequence of ticks with no keyboard events in between. -/
def run (s : PState) : List (ℚ × BodyIn) → PState × List Ev
  | [] => (s, [])
  | t :: rest =>
      let r := update s t.1 t.2
      let r2 := run r.1 rest
      (r2.1, r.2 ++ r2.2)

end Part001

/-- Events that are applyImpulse calls. -/
def isImpulseEv : Ev → Bool
  | Ev.impulse _ _ _ => true
  | _ => false

/-- Events that are setLinvel calls. -/
def isLinvelEv : Ev → Bool
  | Ev.setLinvel _ _ _ => true
  | _ => false

/-- Events that are mixer.update calls. -/
def isMixerEv : Ev → Bool
  | Ev.mixerAdvance _ => true
  | _ => false

/-- Events that start or change an animation (play or cross-fade). -/
def isAnimEv : Ev → Bool
  | Ev.play _ => true
  | Ev.crossFade _ _ _ => true
  | _ => false

/-- Number of applyImpulse calls in an event list. -/
def impulseCount (evs : List Ev) : ℕ :=
  evs.countP isImpulseEv

/-- Whether an event list contains an applyImpulse call. -/
def hasImpulse (evs : List Ev) : Bool :=
  evs.any isImpulseEv

/-- The y components of the setLinvel calls in an event list, in order. -/
def linvelYs (evs : List Ev) : List Q2 :=
  evs.filterMap (fun e => match e with
    | Ev.setLinvel _ y _ => some y
    | _ => none)

/-- The squared horizontal magnitudes x² + z² of the setLinvel calls. -/
def linvelSq (evs : List Ev) : List Q2 :=
  evs.filterMap (fun e => match e with
    | Ev.setLinvel x _ z => some (x * x + z * z)
    | _ => none)

/-- The deltas of the mixer.update calls in an event list, in order. -/
def mixerAdvances (evs : List Ev) : List ℚ :=
  evs.filterMap (fun e => match e with
    | Ev.mixerAdvance d => some d
    | _ => none)

/-- Events that touch neither the physics body nor the mixer clock
(animation transitions and console warnings). -/
def silentEv (e : Ev) : Bool :=
  !(isImpulseEv e || isLinvelEv e || isMixerEv e)

theorem impulseCount_append (xs ys : List Ev) :
    impulseCount (xs ++ ys) = impulseCount xs + impulseCount ys :=
  List.countP_append _ _ _

theorem impulseCount_of_all_silent {evs : List Ev}
    (h : evs.all silentEv = true) : impulseCount evs = 0 := by
  rw [impulseCount, List.countP_eq_zero]
  intro e he
  have hs : silentEv e = true := by
    rw [List.all_eq_true] at h
    exact h e he
  cases e <;> simp [silentEv, isImpulseEv, isLinvelEv, isMixerEv] at hs ⊢

theorem linvelYs_append (xs ys : List Ev) :
    linvelYs (xs ++ ys) = linvelYs xs ++ linvelYs ys :=
  List.filterMap_append _ _ _

theorem linvelYs_of_all_silent {evs : List Ev}
    (h : evs.all silentEv = true) : linvelYs evs = [] := by
  rw [linvelYs, List.filterMap_eq_nil_iff]
  intro e he
  have hs : silentEv e = true := by
    rw [List.all_eq_true] at h
    exact h e he
  cases e <;> simp [silentEv, isImpulseEv, isLinvelEv, isMixerEv] at hs ⊢

theorem linvelSq_append (xs ys : List Ev) :
    linvelSq (xs ++ ys) = linvelSq xs ++ linvelSq ys :=
  List.filterMap_append _ _ _

theorem linvelSq_of_all_silent {evs : List Ev}
    (h : evs.all silentEv = true) : linvelSq evs = [] := by
  rw [linvelSq, List.filterMap_eq_nil_iff]
  intro e he
  have hs : silentEv e = true := by
    rw [List.all_eq_true] at h
    exact h e he
  cases e <;> simp [silentEv, isImpulseEv, isLinvelEv, isMixerEv] at hs ⊢

theorem mixerAdvances_append (xs ys : List Ev) :
    mixerAdvances (xs ++ ys) = mixerAdvances xs ++ mixerAdvances ys :=
  List.filterMap_append _ _ _

theorem mixerAdvances_of_all_silent {evs : List Ev}
    (h : evs.all silentEv = true) : mixerAdvances evs = [] := by
  rw [mixerAdvances, List.filterMap_eq_nil_iff]
  intro e he
  have hs : silentEv e = true := by
    rw [List.all_eq_true] at h
    exact h e he
  cases e <;> simp [silentEv, isImpulseEv, isLinvelEv, isMixerEv] at hs ⊢

theorem playFound_silent (s : PState) (k : String) (d : ℚ) :
    ((playFound s k d).2).all silentEv = true := by
  unfold playFound
  split
  · rfl
  · split <;> simp [silentEv, isImpulseEv, isLinvelEv, isMixerEv]

theorem playFound_keys (s : PState) (k : String) (d : ℚ) :
    (playFound s k d).1.keys = s.keys := by
  unfold playFound
  split
  · rfl
  · split <;> rfl

theorem playFound_flags (s : PState) (k : String) (d : ℚ) :
    (playFound s k d).1.isMoving = s.isMoving ∧
    (playFound s k d).1.isJumping = s.isJumping := by
  unfold playFound
  split
  · exact ⟨rfl, rfl⟩
  · split <;> exact ⟨rfl, rfl⟩

theorem playAnimationJS_silent (s : PState) (n : String) (d : ℚ) :
    ((PlayerJS.playAnimation s n d).2).all silentEv = true := by
  unfold PlayerJS.playAnimation
  split
  · rfl
  · exact playFound_silent _ _ _

theorem playAnimationJS_keys (s : PState) (n : String) (d : ℚ) :
    (PlayerJS.playAnimation s n d).1.keys = s.keys := by
  unfold PlayerJS.playAnimation
  split
  · rfl
  · exact playFound_keys _ _ _

theorem playAnimationJS_flags (s : PState) (n : String) (d : ℚ) :
    (PlayerJS.playAnimation s n d).1.isMoving = s.isMoving ∧
    (PlayerJS.playAnimation s n d).1.isJumping = s.isJumping := by
  unfold PlayerJS.playAnimation
  split
  · exact ⟨rfl, rfl⟩
  · exact playFound_flags _ _ _

theorem playAnimationP1_silent (s : PState) (n : String) (d : ℚ) :
    ((Part001.playAnimation s n d).2).all silentEv = true := by
  unfold Part001.playAnimation
  split
  · exact playFound_silent _ _ _
  · split
    · split
      · simp only [List.all_cons, Bool.and_eq_true]
        exact ⟨rfl, playFound_silent _ _ _⟩
      · rfl
    · rfl

theorem playAnimationP1_keys (s : PState) (n : String) (d : ℚ) :
    (Part001.playAnimation s n d).1.keys = s.keys := by
  unfold Part001.playAnimation
  split
  · exact playFound_keys _ _ _
  · split
    · split
      · exact playFound_keys _ _ _
      · rfl
    · rfl

theorem playAnimationP1_flags (s : PState) (n : String) (d : ℚ) :
    (Part001.playAnimation s n d).1.isMoving = s.isMoving ∧
    (Part001.playAnimation s n d).1.isJumping = s.isJumping := by
  unfold Part001.playAnimation
  split
  · exact playFound_flags _ _ _
  · split
    · split
      · exact playFound_flags _ _ _
      · exact ⟨rfl, rfl⟩
    · exact ⟨rfl, rfl⟩

theorem uasJS_silent (s : PState) (wm wj : Bool) :
    ((PlayerJS.updateAnimationState s wm wj).2).all silentEv = true := by
  unfold PlayerJS.updateAnimationState
  split
  · split
    · exact playAnimationJS_silent _ _ _
    · rfl
  · split
    · split
      · split
        · exact playAnimationJS_silent _ _ _
        · split
          · exact playAnimationJS_silent _ _ _
          · rfl
      · split
        · exact playAnimationJS_silent _ _ _
        · rfl
    · split
      · split
        · exact playAnimationJS_silent _ _ _
        · split
          · exact playAnimationJS_silent _ _ _
          · rfl
      · split
        · split
          · exact playAnimationJS_silent _ _ _
          · rfl
        · rfl

theorem uasJS_keys (s : PState) (wm wj : Bool) :
    (PlayerJS.updateAnimationState s wm wj).1.keys = s.keys := by
  unfold PlayerJS.updateAnimationState
  split
  · split
    · exact playAnimationJS_keys _ _ _
    · rfl
  · split
    · split
      · split
        · exact playAnimationJS_keys _ _ _
        · split
          · exact playAnimationJS_keys _ _ _
          · rfl
      · split
        · exact playAnimationJS_keys _ _ _
        · rfl
    · split
      · split
        · exact playAnimationJS_keys _ _ _
        · split
          · exact playAnimationJS_keys _ _ _
          · rfl
      · split
        · split
          · exact playAnimationJS_keys _ _ _
          · rfl
        · rfl

theorem uasJS_flags (s : PState) (wm wj : Bool) :
    (PlayerJS.updateAnimationState s wm wj).1.isMoving = s.isMoving ∧
    (PlayerJS.updateAnimationState s wm wj).1.isJumping = s.isJumping := by
  unfold PlayerJS.updateAnimationState
  split
  · split
    · exact playAnimationJS_flags _ _ _
    · exact ⟨rfl, rfl⟩
  · split
    · split
      · split
        · exact playAnimationJS_flags _ _ _
        · split
          · exact playAnimationJS_flags _ _ _
          · exact ⟨rfl, rfl⟩
      · split
        · exact playAnimationJS_flags _ _ _
        · exact ⟨rfl, rfl⟩
    · split
      · split
        · exact playAnimationJS_flags _ _ _
        · split
          · exact playAnimationJS_flags _ _ _
          · exact ⟨rfl, rfl⟩
      · split
        · split
          · exact playAnimationJS_flags _ _ _
          · exact ⟨rfl, rfl⟩
        · exact ⟨rfl, rfl⟩

theorem uasP1_silent (s : PState) (wm wj : Bool) :
    ((Part001.updateAnimationState s wm wj).2).all silentEv = true := by
  unfold Part001.updateAnimationState
  split
  · exact playAnimationP1_silent _ _ _
  · split
    · split
      · exact playAnimationP1_silent _ _ _
      · exact playAnimationP1_silent _ _ _
    · split
      · exact playAnimationP1_silent _ _ _
      · split
        · exact playAnimationP1_silent _ _ _
        · rfl

theorem uasP1_keys (s : PState) (wm wj : Bool) :
    (Part001.updateAnimationState s wm wj).1.keys = s.keys := by
  unfold Part001.updateAnimationState
  split
  · exact playAnimationP1_keys _ _ _
  · split
    · split
      · exact playAnimationP1_keys _ _ _
      · exact playAnimationP1_keys _ _ _
    · split
      · exact playAnimationP1_keys _ _ _
      · split
        · exact playAnimationP1_keys _ _ _
        · rfl

theorem uasP1_flags (s : PState) (wm wj : Bool) :
    (Part001.updateAnimationState s wm wj).1.isMoving = s.isMoving ∧
    (Part001.updateAnimationState s wm wj).1.isJumping = s.isJumping := by
  unfold Part001.updateAnimationState
  split
  · exact playAnimationP1_flags _ _ _
  · split
    · split
      · exact playAnimationP1_flags _ _ _
      · exact playAnimationP1_flags _ _ _
    · split
      · exact playAnimationP1_flags _ _ _
      · split
        · exact playAnimationP1_flags _ _ _
        · exact ⟨rfl, rfl⟩

theorem impulseCount_nil : impulseCount [] = 0 := rfl

theorem impulseCount_cons (e : Ev) (l : List Ev) :
    impulseCount (e :: l) =
      impulseCount l + (if isImpulseEv e = true then 1 else 0) := by
  simp [impulseCount, List.countP_cons]

theorem impulseCount_uasJS (s : PState) (wm wj : Bool) :
    impulseCount (PlayerJS.updateAnimationState s wm wj).2 = 0 :=
  impulseCount_of_all_silent (uasJS_silent s wm wj)

theorem impulseCount_uasP1 (s : PState) (wm wj : Bool) :
    impulseCount (Part001.updateAnimationState s wm wj).2 = 0 :=
  impulseCount_of_all_silent (uasP1_silent s wm wj)

theorem impulseCount_playAnimationJS (s : PState) (n : String) (d : ℚ) :
    impulseCount (PlayerJS.playAnimation s n d).2 = 0 :=
  impulseCount_of_all_silent (playAnimationJS_silent s n d)

theorem linvelYs_uasJS (s : PState) (wm wj : Bool) :
    linvelYs (PlayerJS.updateAnimationState s wm wj).2 = [] :=
  linvelYs_of_all_silent (uasJS_silent s wm wj)

theorem linvelYs_uasP1 (s : PState) (wm wj : Bool) :
    linvelYs (Part001.updateAnimationState s wm wj).2 = [] :=
  linvelYs_of_all_silent (uasP1_silent s wm wj)

theorem linvelYs_playAnimationJS (s : PState) (n : String) (d : ℚ) :
    linvelYs (PlayerJS.playAnimation s n d).2 = [] :=
  linvelYs_of_all_silent (playAnimationJS_silent s n d)

theorem linvelSq_uasJS (s : PState) (wm wj : Bool) :
    linvelSq (PlayerJS.updateAnimationState s wm wj).2 = [] :=
  linvelSq_of_all_silent (uasJS_silent s wm wj)

theorem linvelSq_uasP1 (s : PState) (wm wj : Bool) :
    linvelSq (Part001.updateAnimationState s wm wj).2 = [] :=
  linvelSq_of_all_silent (uasP1_silent s wm wj)

theorem linvelSq_playAnimationJS (s : PState) (n : String) (d : ℚ) :
    linvelSq (PlayerJS.playAnimation s n d).2 = [] :=
  linvelSq_of_all_silent (playAnimationJS_silent s n d)

theorem mixerAdvances_uasJS (s : PState) (wm wj : Bool) :
    mixerAdvances (PlayerJS.updateAnimationState s wm wj).2 = [] :=
  mixerAdvances_of_all_silent (uasJS_silent s wm wj)

theorem mixerAdvances_uasP1 (s : PState) (wm wj : Bool) :
    mixerAdvances (Part001.updateAnimationState s wm wj).2 = [] :=
  mixerAdvances_of_all_silent (uasP1_silent s wm wj)

theorem mixerAdvances_playAnimationJS (s : PState) (n : String) (d : ℚ) :
    mixerAdvances (PlayerJS.playAnimation s n d).2 = [] :=
  mixerAdvances_of_all_silent (playAnimationJS_silent s n d)

theorem linvelYs_cons_mixer (d : ℚ) (l : List Ev) :
    linvelYs (Ev.mixerAdvance d :: l) = linvelYs l := by
  simp [linvelYs]

theorem linvelYs_cons_linvel (x y z : Q2) (l : List Ev) :
    linvelYs (Ev.setLinvel x y z :: l) = y :: linvelYs l := by
  simp [linvelYs]

theorem linvelYs_cons_impulse (x y z : ℚ) (l : List Ev) :
    linvelYs (Ev.impulse x y z :: l) = linvelYs l := by
  simp [linvelYs]

theorem linvelYs_nil : linvelYs [] = [] := rfl

theorem linvelSq_cons_mixer (d : ℚ) (l : List Ev) :
    linvelSq (Ev.mixerAdvance d :: l) = linvelSq l := by
  simp [linvelSq]

theorem linvelSq_cons_linvel (x y z : Q2) (l : List Ev) :
    linvelSq (Ev.setLinvel x y z :: l) = (x * x + z * z) :: linvelSq l := by
  simp [linvelSq]

theorem linvelSq_cons_impulse (x y z : ℚ) (l : List Ev) :
    linvelSq (Ev.impulse x y z :: l) = linvelSq l := by
  simp [linvelSq]

theorem linvelSq_nil : linvelSq [] = [] := rfl

theorem mixerAdvances_cons_mixer (d : ℚ) (l : List Ev) :
    mixerAdvances (Ev.mixerAdvance d :: l) = d :: mixerAdvances l := by
  simp [mixerAdvances]

theorem mixerAdvances_cons_linvel (x y z : Q2) (l : List Ev) :
    mixerAdvances (Ev.setLinvel x y z :: l) = mixerAdvances l := by
  simp [mixerAdvances]

theorem mixerAdvances_cons_impulse (x y z : ℚ) (l : List Ev) :
    mixerAdvances (Ev.impulse x y z :: l) = mixerAdvances l := by
  simp [mixerAdvances]

theorem mixerAdvances_nil : mixerAdvances [] = [] := rfl

theorem updateJS_keys (s : PState) (δ : ℚ) (inp : BodyIn) :
    (PlayerJS.update s δ inp).1.keys =
      (if s.keys.space = true ∧ |inp.velY| < 1/10 then
        ⟨s.keys.w, s.keys.a, s.keys.s, s.keys.d, false⟩ else s.keys) := by
  simp only [PlayerJS.update, mixerStep, uasJS_keys]
  split_ifs <;> simp_all [playAnimationJS_keys, uasJS_keys]

theorem updateJS_impulseCount (s : PState) (δ : ℚ) (inp : BodyIn) :
    impulseCount (PlayerJS.update s δ inp).2 =
      (if s.keys.space = true ∧ |inp.velY| < 1/10 then 1 else 0) := by
  simp only [PlayerJS.update, mixerStep, uasJS_keys]
  split_ifs <;>
    simp_all [impulseCount_nil, impulseCount_cons, impulseCount_append,
      impulseCount_uasJS, impulseCount_playAnimationJS, isImpulseEv]

theorem updateJS_linvelYs (s : PState) (δ : ℚ) (inp : BodyIn) :
    linvelYs (PlayerJS.update s δ inp).2 = [Q2.ofRat inp.velY] := by
  simp only [PlayerJS.update, mixerStep, uasJS_keys]
  split_ifs <;>
    simp_all [linvelYs_append, linvelYs_uasJS, linvelYs_playAnimationJS,
      linvelYs_cons_mixer, linvelYs_cons_linvel, linvelYs_cons_impulse,
      linvelYs_nil]

theorem updateJS_linvelSq (s : PState) (δ : ℚ) (inp : BodyIn) :
    linvelSq (PlayerJS.update s δ inp).2 =
      [(writtenXZJS s.keys).1 * (writtenXZJS s.keys).1 +
        (writtenXZJS s.keys).2 * (writtenXZJS s.keys).2] := by
  simp only [PlayerJS.update, mixerStep, uasJS_keys, writtenXZJS]
  split_ifs <;>
    simp_all [linvelSq_append, linvelSq_uasJS, linvelSq_playAnimationJS,
      linvelSq_cons_mixer, linvelSq_cons_linvel, linvelSq_cons_impulse,
      linvelSq_nil]

theorem updateJS_mixerAdvances (s : PState) (δ : ℚ) (inp : BodyIn) :
    mixerAdvances (PlayerJS.update s δ inp).2 = [δ] := by
  simp only [PlayerJS.update, mixerStep, uasJS_keys]
  split_ifs <;>
    simp_all [mixerAdvances_append, mixerAdvances_uasJS,
      mixerAdvances_playAnimationJS, mixerAdvances_cons_mixer,
      mixerAdvances_cons_linvel, mixerAdvances_cons_impulse, mixerAdvances_nil]

theorem updateP1_keys (s : PState) (δ : ℚ) (inp : BodyIn) :
    (Part001.update s δ inp).1.keys = s.keys := by
  simp only [Part001.update, mixerStep]
  split_ifs <;> simp_all [uasP1_keys]

theorem updateP1_impulseCount (s : PState) (δ : ℚ) (inp : BodyIn) :
    impulseCount (Part001.update s δ inp).2 =
      (if (|inp.velY| < 1/10 ∧ inp.posY < 11/10) ∧ s.keys.space = true
       then 1 else 0) := by
  simp only [Part001.update, mixerStep]
  split_ifs <;>
    (try simp_all [impulseCount_nil, impulseCount_cons, impulseCount_append,
      impulseCount_uasP1, isImpulseEv]) <;>
    linarith

theorem updateP1_linvelYs (s : PState) (δ : ℚ) (inp : BodyIn) :
    linvelYs (Part001.update s δ inp).2 = [Q2.ofRat inp.velY] := by
  simp only [Part001.update, mixerStep]
  split_ifs <;>
    simp_all [linvelYs_append, linvelYs_uasP1, linvelYs_cons_mixer,
      linvelYs_cons_linvel, linvelYs_cons_impulse, linvelYs_nil]

theorem updateP1_linvelSq (s : PState) (δ : ℚ) (inp : BodyIn) :
    linvelSq (Part001.update s δ inp).2 =
      [(writtenXZP1 s.keys).1 * (writtenXZP1 s.keys).1 +
        (writtenXZP1 s.keys).2 * (writtenXZP1 s.keys).2] := by
  simp only [Part001.update, mixerStep, writtenXZP1]
  split_ifs <;>
    simp_all [linvelSq_append, linvelSq_uasP1, linvelSq_cons_mixer,
      linvelSq_cons_linvel, linvelSq_cons_impulse, linvelSq_nil]

theorem updateP1_mixerAdvances (s : PState) (δ : ℚ) (inp : BodyIn) :
    mixerAdvances (Part001.update s δ inp).2 = [δ] := by
  simp only [Part001.update, mixerStep]
  split_ifs <;>
    simp_all [mixerAdvances_append, mixerAdvances_uasP1, mixerAdvances_cons_mixer,
      mixerAdvances_cons_linvel, mixerAdvances_cons_impulse, mixerAdvances_nil]

theorem hasImpulse_iff (evs : List Ev) :
    hasImpulse evs = true ↔ 0 < impulseCount evs := by
  simp [hasImpulse, impulseCount, List.any_eq_true, List.countP_pos_iff]

theorem runJS_impulse_bound (ticks : List (ℚ × BodyIn)) : ∀ s : PState,
    impulseCount (PlayerJS.run s ticks).2 ≤
      (if s.keys.space = true then 1 else 0) := by
  induction ticks with
  | nil =>
      intro s
      simp only [PlayerJS.run, impulseCount_nil]
      split <;> omega
  | cons t rest ih =>
      intro s
      simp only [PlayerJS.run]
      rw [impulseCount_append, updateJS_impulseCount]
      have hk := updateJS_keys s t.1 t.2
      have hb := ih (PlayerJS.update s t.1 t.2).1
      by_cases hs : s.keys.space = true
      · by_cases hg : |t.2.velY| < 1/10
        · have h2 : (PlayerJS.update s t.1 t.2).1.keys.space = false := by
            rw [hk, if_pos ⟨hs, hg⟩]
          rw [h2] at hb
          rw [if_pos ⟨hs, hg⟩, if_pos hs]
          simp at hb
          omega
        · have h2 : (PlayerJS.update s t.1 t.2).1.keys = s.keys := by
            rw [hk, if_neg (fun hcon => hg hcon.2)]
          rw [h2, if_pos hs] at hb
          rw [if_neg (fun hcon => hg hcon.2), if_pos hs]
          omega
      · have h2 : (PlayerJS.update s t.1 t.2).1.keys = s.keys := by
          rw [hk, if_neg (fun hcon => hs hcon.1)]
        rw [h2, if_neg hs] at hb
        rw [if_neg (fun hcon => hs hcon.1), if_neg hs]
        omega

/-- C1 (amended): the grounded check gating a jump differs between the two
controller variants in the repository.  In src/unnamed/part_001 the check is
the claimed conjunction — a jump impulse is applied iff the jump flag is set
AND the vertical velocity magnitude is below 0.1 AND the vertical position is
below 1.1 above the ground plane.  In src/src/Player.js the check tests only
the vertical velocity (|vy| < 0.1); there is no position conjunct. -/
theorem jump_gate_characterization (s : PState) (δ : ℚ) (inp : BodyIn) :
    (hasImpulse (Part001.update s δ inp).2 = true ↔
      (s.keys.space = true ∧ |inp.velY| < 1/10 ∧ inp.posY < 11/10)) ∧
    (hasImpulse (PlayerJS.update s δ inp).2 = true ↔
      (s.keys.space = true ∧ |inp.velY| < 1/10)) := by
  constructor
  · rw [hasImpulse_iff, updateP1_impulseCount]
    split_ifs with h
    · simp only [Nat.zero_lt_one, true_iff]
      exact ⟨h.2, h.1.1, h.1.2⟩
    · simp only [Nat.lt_irrefl, false_iff]
      intro hcon
      exact h ⟨⟨hcon.2.1, hcon.2.2⟩, hcon.1⟩
  · rw [hasImpulse_iff, updateJS_impulseCount]
    split_ifs with h
    · simp only [Nat.zero_lt_one, true_iff]
      exact h
    · simp only [Nat.lt_irrefl, false_iff]
      exact h

/-- C1 counterexample: the claim, read against src/src/Player.js, is false —
with the jump flag set, vertical velocity 0 and vertical position y = 50
(far above any small threshold over the ground plane), the update still
applies a jump impulse, because that variant's gate never inspects the
position. -/
theorem jump_gate_no_position_cex :
    hasImpulse (PlayerJS.update
      ⟨⟨false, false, false, false, true⟩, false, false, [], none, 0, 0, 1, 0⟩
      1 ⟨0, 0, 0, 0, 50, 0⟩).2 = true ∧
    ¬ ((50 : ℚ) < 11/10) := by
  constructor
  · rw [hasImpulse_iff, updateJS_impulseCount]
    norm_num
  · norm_num

/-- C2 (amended): in src/src/Player.js the jump flag is consumed with the
impulse: over any sequence of ticks with no keyboard events in between, at
most one impulse is ever applied, and one tick leaves the space flag equal to
(space && not (|vy| < 0.1)) — cleared exactly when the impulse fires.  In the
part_001 variant the controller never clears the flag (keys.space is
untouched by update), so a held key re-fires on every grounded tick. -/
theorem jump_impulse_consumed_once (s : PState) (δ : ℚ) (inp : BodyIn)
    (ticks : List (ℚ × BodyIn)) :
    impulseCount (PlayerJS.run s ticks).2 ≤ 1 ∧
    (PlayerJS.update s δ inp).1.keys.space
        = (s.keys.space && !(decide (|inp.velY| < 1/10))) ∧
    (Part001.update s δ inp).1.keys.space = s.keys.space := by
  refine ⟨?_, ?_, ?_⟩
  · have h := runJS_impulse_bound ticks s
    have : (if s.keys.space = true then 1 else 0) ≤ 1 := by split <;> omega
    omega
  · rw [updateJS_keys]
    by_cases hs : s.keys.space = true
    · by_cases hg : |inp.velY| < 1/10
      · rw [if_pos ⟨hs, hg⟩, hs, decide_eq_true hg]
        rfl
      · rw [if_neg (fun hcon => hg hcon.2), hs, decide_eq_false hg]
        rfl
    · have h0 : s.keys.space = false := by
        revert hs; cases s.keys.space <;> simp
      rw [if_neg (fun hcon => hs hcon.1), h0]
      simp
  · rw [updateP1_keys]

/-- C2 counterexample: the claim, read against src/unnamed/part_001, is
false — starting grounded with the space flag set and holding it (no
keyboard events at all), a grounded tick, an airborne tick and a second
grounded tick produce two jump impulses, and the flag is still set
afterwards. -/
theorem part001_held_key_double_impulse_cex :
    impulseCount (Part001.run
      ⟨⟨false, false, false, false, true⟩, false, false, [], none, 0, 0, 1, 0⟩
      [(1, ⟨0, 0, 0, 0, 1, 0⟩), (1, ⟨0, 5, 0, 0, 2, 0⟩),
        (1, ⟨0, 0, 0, 0, 1, 0⟩)]).2 = 2 ∧
    (Part001.run
      ⟨⟨false, false, false, false, true⟩, false, false, [], none, 0, 0, 1, 0⟩
      [(1, ⟨0, 0, 0, 0, 1, 0⟩), (1, ⟨0, 5, 0, 0, 2, 0⟩),
        (1, ⟨0, 0, 0, 0, 1, 0⟩)]).1.keys.space = true := by
  constructor
  · simp only [Part001.run, impulseCount_append, updateP1_impulseCount,
      updateP1_keys, impulseCount_nil]
    norm_num
  · simp only [Part001.run, updateP1_keys]

/-- C3 (amended): per frame of the animate() loop in src/src/main.js the
mixer is advanced twice by the tick's delta — once inside Player.update and
once more by the loop itself — and Player.update alone advances it exactly
once, unconditionally, whatever animation transition happens. -/
theorem mixer_advanced_twice_per_tick (s : PState) (δ : ℚ) (inp : BodyIn) :
    mixerAdvances (animateTick s δ inp).2 = [δ, δ] ∧
    mixerAdvances (PlayerJS.update s δ inp).2 = [δ] := by
  constructor
  · simp [animateTick, mixerAdvances_append, updateJS_mixerAdvances,
      mixerAdvances_cons_mixer, mixerAdvances_nil]
  · exact updateJS_mixerAdvances s δ inp

/-- C3 counterexample: the claim that the mixer is advanced exactly once per
simulation tick is false — one animate() frame performs two mixer.update
calls. -/
theorem mixer_advanced_not_once_cex :
    (mixerAdvances (animateTick
      ⟨⟨false, false, false, false, false⟩, false, false, [], none, 0, 0, 1, 0⟩
      1 ⟨0, 0, 0, 0, 1, 0⟩).2).length = 2 ∧ (2 : ℕ) ≠ 1 := by
  constructor
  · simp [animateTick, mixerAdvances_append, updateJS_mixerAdvances,
      mixerAdvances_cons_mixer, mixerAdvances_nil]
  · decide

/-- C6: in both controller variants, the per-tick movement resolution writes
exactly one linear velocity to the body, and its y component equals the
body's vertical velocity read at the start of the tick — movement resolution
never changes vertical velocity. -/
theorem written_velocity_preserves_vertical (s : PState) (δ : ℚ) (inp : BodyIn) :
    linvelYs (PlayerJS.update s δ inp).2 = [Q2.ofRat inp.velY] ∧
    linvelYs (Part001.update s δ inp).2 = [Q2.ofRat inp.velY] :=
  ⟨updateJS_linvelYs s δ inp, updateP1_linvelYs s δ inp⟩

/-- C7: invoking the transition helper with a name that resolves to the
already-current action is a no-op in both variants — the state is returned
unchanged (the current action keeps its playback time; nothing is reset) and
no event is emitted (no cross-fade, no play call). -/
theorem play_current_action_noop (s : PState) (name : String) (d : ℚ)
    (k : String) (hr : resolveName s.actions name = some k)
    (hc : s.current = some k) :
    PlayerJS.playAnimation s name d = (s, []) ∧
    Part001.playAnimation s name d = (s, []) := by
  have hp : playFound s k d = (s, []) := by
    unfold playFound
    rw [if_pos hc]
  constructor
  · unfold PlayerJS.playAnimation
    rw [hr]
    exact hp
  · unfold Part001.playAnimation
    rw [hr]
    exact hp

/-- C7 witness: requesting idle while idle is current leaves the controller
untouched in both variants. -/
theorem play_current_action_noop_witness :
    PlayerJS.playAnimation
      ⟨⟨false, false, false, false, false⟩, false, false,
        [("idle", ⟨0, true, 1⟩)], some "idle", 0, 0, 1, 0⟩ "idle" (3/10) =
      (⟨⟨false, false, false, false, false⟩, false, false,
        [("idle", ⟨0, true, 1⟩)], some "idle", 0, 0, 1, 0⟩, []) ∧
    Part001.playAnimation
      ⟨⟨false, false, false, false, false⟩, false, false,
        [("idle", ⟨0, true, 1⟩)], some "idle", 0, 0, 1, 0⟩ "idle" (3/10) =
      (⟨⟨false, false, false, false, false⟩, false, false,
        [("idle", ⟨0, true, 1⟩)], some "idle", 0, 0, 1, 0⟩, []) :=
  play_current_action_noop _ "idle" (3/10) "idle" (by decide) rfl

/-- C8 (amended): a transition request whose name matches no action key
(neither equal to a key nor contained in one) raises no error in either
variant, but the two variants differ: src/src/Player.js leaves the state
unchanged and only emits a console warning, while the part_001 variant warns
and then falls back to playing idle — when an exact idle action exists and is
not already current, it cross-fades to the first key matching "idle",
changing the current action; only otherwise is its state unchanged too. -/
theorem unmatched_transition_behavior (s : PState) (name : String) (d : ℚ)
    (hn : resolveName s.actions name = none) :
    PlayerJS.playAnimation s name d = (s, [Ev.warn name]) ∧
    (lookupAction s.actions "idle" = none ∨ s.current = some "idle" →
      Part001.playAnimation s name d = (s, [Ev.warn name])) ∧
    (∀ k, (lookupAction s.actions "idle").isSome = true →
      ¬ s.current = some "idle" →
      resolveName s.actions "idle" = some k →
      Part001.playAnimation s name d =
        ((playFound s k (3/10)).1, Ev.warn name :: (playFound s k (3/10)).2)) := by
  refine ⟨?_, ?_, ?_⟩
  · unfold PlayerJS.playAnimation
    rw [hn]
  · intro h
    unfold Part001.playAnimation
    rw [hn]
    rcases h with h | h
    · rw [if_neg]
      intro hcon
      rw [h] at hcon
      exact absurd hcon.1 (by simp)
    · rw [if_neg]
      intro hcon
      exact hcon.2 h
  · intro k hsome hcur hidle
    unfold Part001.playAnimation
    rw [hn]
    rw [if_pos ⟨hsome, hcur⟩, hidle]

/-- C8 counterexample: the claim that an unmatched transition leaves the
current action unchanged is false for the part_001 variant — with actions
{idle, run} and run current, requesting the unmatched name "flip" switches
the current action to idle. -/
theorem part001_unmatched_changes_action_cex :
    (Part001.playAnimation
      ⟨⟨false, false, false, false, false⟩, false, false,
        [("idle", ⟨0, false, 1⟩), ("run", ⟨0, true, 1⟩)], some "run",
        0, 0, 1, 0⟩ "flip" (3/10)).1.current = some "idle" ∧
    (⟨⟨false, false, false, false, false⟩, false, false,
        [("idle", ⟨0, false, 1⟩), ("run", ⟨0, true, 1⟩)], some "run",
        0, 0, 1, 0⟩ : PState).current = some "run" := by
  constructor
  · decide
  · rfl

/-- C8 witness: Player.js silently drops the unmatched request "flip", and
part_001 with no idle action also leaves the state unchanged, while with an
idle action present it switches to it. -/
theorem unmatched_transition_behavior_witness :
    PlayerJS.playAnimation
      ⟨⟨false, false, false, false, false⟩, false, false,
        [("run", ⟨0, true, 1⟩)], some "run", 0, 0, 1, 0⟩ "flip" (3/10) =
      (⟨⟨false, false, false, false, false⟩, false, false,
        [("run", ⟨0, true, 1⟩)], some "run", 0, 0, 1, 0⟩,
       [Ev.warn "flip"]) ∧
    Part001.playAnimation
      ⟨⟨false, false, false, false, false⟩, false, false,
        [("run", ⟨0, true, 1⟩)], some "run", 0, 0, 1, 0⟩ "flip" (3/10) =
      (⟨⟨false, false, false, false, false⟩, false, false,
        [("run", ⟨0, true, 1⟩)], some "run", 0, 0, 1, 0⟩,
       [Ev.warn "flip"]) :=
  ⟨(unmatched_transition_behavior _ "flip" (3/10) (by decide)).1,
   (unmatched_transition_behavior _ "flip" (3/10) (by decide)).2.1
     (Or.inl (by decide))⟩

theorem resolveName_append (name : String) (post : List (String × ActionRec))
    (k : String) (r : ActionRec) :
    ∀ pre : List (String × ActionRec),
      (∀ p ∈ pre, nameMatches p.1 name = false) →
      nameMatches k name = true →
      resolveName (pre ++ (k, r) :: post) name = some k := by
  intro pre
  induction pre with
  | nil =>
      intro _ hk
      simp only [List.nil_append, resolveName, List.map_cons]
      exact List.find?_cons_of_pos _ hk
  | cons p t ih =>
      intro hpre hk
      simp only [List.cons_append, resolveName, List.map_cons]
      have step : List.find? (fun key => nameMatches key name)
          (p.1 :: ((t ++ (k, r) :: post).map Prod.fst)) =
          List.find? (fun key => nameMatches key name)
            ((t ++ (k, r) :: post).map Prod.fst) :=
        List.find?_cons_of_neg _
          (by simp [hpre p (List.mem_cons_self p t)])
      rw [step]
      exact ih (fun q hq => hpre q (List.mem_cons_of_mem p hq)) hk

/-- C10: the transition helper's name lookup is the deterministic first
match over the actions map in insertion order, where a key matches when it
equals the requested name or contains it as a substring: whenever every key
registered before k fails the match and k matches, the lookup returns k.  In
particular, with clips registered in the order walking, walk, the request
"walk" resolves to the earlier key "walking" although an exact match was
registered later. -/
theorem resolve_first_match_wins (name : String)
    (pre post : List (String × ActionRec)) (k : String) (r : ActionRec)
    (hpre : ∀ p ∈ pre, nameMatches p.1 name = false)
    (hk : nameMatches k name = true) :
    resolveName (pre ++ (k, r) :: post) name = some k ∧
    resolveName [("walking", ⟨0, false, 1⟩), ("walk", ⟨0, false, 1⟩)] "walk"
      = some "walking" :=
  ⟨resolveName_append name post k r pre hpre hk, by decide⟩

/-- C10 witness: with actions registered in the order idle, run, the request
"run" resolves to run (idle does not match), and the walking-before-walk
shadowing holds at the concrete input. -/
theorem resolve_first_match_wins_witness :
    resolveName ([("idle", ⟨0, false, 1⟩)] ++ ("run", ⟨0, false, 1⟩) :: [])
      "run" = some "run" ∧
    resolveName [("walking", ⟨0, false, 1⟩), ("walk", ⟨0, false, 1⟩)] "walk"
      = some "walking" :=
  resolve_first_match_wins "run" [("idle", ⟨0, false, 1⟩)] [] "run"
    ⟨0, false, 1⟩ (by decide) (by decide)

theorem lookupAction_nil (name : String) : lookupAction [] name = none := rfl

theorem uasJS_empty (s : PState) (wm wj : Bool) (ha : s.actions = []) :
    PlayerJS.updateAnimationState s wm wj = (s, []) := by
  have h : ∀ n, lookupAction s.actions n = none := by
    rw [ha]; intro n; rfl
  unfold PlayerJS.updateAnimationState
  simp [h]

theorem updateJS_empty (s : PState) (δ : ℚ) (inp : BodyIn)
    (ha : s.actions = []) (hc : s.current = none) :
    (PlayerJS.update s δ inp).1.actions = [] ∧
    (PlayerJS.update s δ inp).1.current = none ∧
    ((PlayerJS.update s δ inp).2).countP isAnimEv = 0 ∧
    ((PlayerJS.update s δ inp).2).countP isLinvelEv = 1 := by
  simp only [PlayerJS.update, mixerStep]
  rw [uasJS_empty _ _ _ (by simp [ha])]
  split_ifs <;> simp_all [isAnimEv, isLinvelEv, lookupAction_nil, ha, hc]

theorem runJS_empty (ticks : List (ℚ × BodyIn)) : ∀ s : PState,
    s.actions = [] → s.current = none →
    (PlayerJS.run s ticks).1.actions = [] ∧
    (PlayerJS.run s ticks).1.current = none ∧
    ((PlayerJS.run s ticks).2).countP isAnimEv = 0 ∧
    ((PlayerJS.run s ticks).2).countP isLinvelEv = ticks.length := by
  induction ticks with
  | nil =>
      intro s ha hc
      simp [PlayerJS.run, ha, hc]
  | cons t rest ih =>
      intro s ha hc
      have h1 := updateJS_empty s t.1 t.2 ha hc
      have h2 := ih (PlayerJS.update s t.1 t.2).1 h1.1 h1.2.1
      simp only [PlayerJS.run, List.countP_append, List.length_cons]
      refine ⟨h2.1, h2.2.1, ?_, ?_⟩
      · rw [h1.2.2.1, h2.2.2.1]
      · rw [h1.2.2.2, h2.2.2.2]
        omega

/-- C9: constructing the src/src/Player.js controller with an empty
animation clip list skips animation setup entirely — the actions map is
empty and no action is current — and this persists across every following
update tick: the actions map stays empty, no action ever becomes current,
and the ticks proceed normally with no animation transitions (no play or
cross-fade ever) while still writing the body's linear velocity exactly once
per tick.  (The embedding is total, so every such update also completes
without error.) -/
theorem empty_clip_list_safe (ticks : List (ℚ × BodyIn)) :
    PlayerJS.initState [] =
      ⟨⟨false, false, false, false, false⟩, false, false, [], none,
        0, 0, 1, 0⟩ ∧
    (PlayerJS.run (PlayerJS.initState []) ticks).1.actions = [] ∧
    (PlayerJS.run (PlayerJS.initState []) ticks).1.current = none ∧
    ((PlayerJS.run (PlayerJS.initState []) ticks).2).countP isAnimEv = 0 ∧
    ((PlayerJS.run (PlayerJS.initState []) ticks).2).countP isLinvelEv
      = ticks.length := by
  have h0 : PlayerJS.initState [] =
      ⟨⟨false, false, false, false, false⟩, false, false, [], none,
        0, 0, 1, 0⟩ := by
    unfold PlayerJS.initState
    simp
  have h := runJS_empty ticks (PlayerJS.initState [])
    (by rw [h0]) (by rw [h0])
  exact ⟨h0, h.1, h.2.1, h.2.2.1, h.2.2.2⟩

theorem natSqrtQ_zero : natSqrtQ 0 = some 0 := by decide

theorem natSqrtQ_one : natSqrtQ 1 = some 1 := by decide

theorem natSqrtQ_two : natSqrtQ 2 = none := by decide

theorem ratSqrtQ_zero : ratSqrtQ 0 = some 0 := by
  unfold ratSqrtQ
  norm_num [natSqrtQ_zero, natSqrtQ_one]

theorem ratSqrtQ_one : ratSqrtQ 1 = some 1 := by
  unfold ratSqrtQ
  norm_num [natSqrtQ_one]

theorem ratSqrtQ_two : ratSqrtQ 2 = none := by
  unfold ratSqrtQ
  norm_num [natSqrtQ_one, (by decide : natSqrtQ (Int.toNat 2) = none)]

theorem q2sqrt_zero : q2sqrt 0 = ⟨0, 0⟩ := by
  unfold q2sqrt
  rw [ratSqrtQ_zero]

theorem q2sqrt_one : q2sqrt 1 = ⟨1, 0⟩ := by
  unfold q2sqrt
  rw [ratSqrtQ_one]

theorem q2sqrt_two : q2sqrt 2 = ⟨0, 1⟩ := by
  unfold q2sqrt
  rw [ratSqrtQ_two, (by norm_num : (2:ℚ)/2 = 1), ratSqrtQ_one]

theorem Q2.zero_def : (0 : Q2) = ⟨0, 0⟩ := rfl

theorem Q2.one_def : (1 : Q2) = ⟨1, 0⟩ := rfl

theorem Q2.add_def (x y : Q2) : x + y = ⟨x.a + y.a, x.b + y.b⟩ := rfl

theorem Q2.mul_def (x y : Q2) :
    x * y = ⟨x.a * y.a + 2 * x.b * y.b, x.a * y.b + x.b * y.a⟩ := rfl

theorem Q2.inv_def (x : Q2) :
    x⁻¹ = ⟨x.a / (x.a * x.a - 2 * x.b * x.b),
           -x.b / (x.a * x.a - 2 * x.b * x.b)⟩ := rfl

theorem Q2.div_def (x y : Q2) : x / y = x * y⁻¹ := rfl

theorem Q2.mk_eq_zero (x y : ℚ) : ((⟨x, y⟩ : Q2) = 0) ↔ (x = 0 ∧ y = 0) := by
  rw [Q2.zero_def, Q2.mk.injEq]

theorem Q2.mk_eq_one (x y : ℚ) : ((⟨x, y⟩ : Q2) = 1) ↔ (x = 1 ∧ y = 0) := by
  rw [Q2.one_def, Q2.mk.injEq]

theorem moveRaw_additive (k : Keys) :
    (moveRaw k).1
      = (if k.d = true then (1:ℚ) else 0) - (if k.a = true then 1 else 0) ∧
    (moveRaw k).2
      = (if k.s = true then (1:ℚ) else 0) - (if k.w = true then 1 else 0) := by
  rcases k with ⟨w, a, sk, d, sp⟩
  cases w <;> cases a <;> cases sk <;> cases d <;>
    norm_num [moveRaw]

theorem normVec_unit (k : Keys)
    (h1 : ¬ (moveRaw k).1 = 0) (h2 : ¬ (moveRaw k).2 = 0) :
    (normVec (moveRaw k).1 (moveRaw k).2).1 *
        (normVec (moveRaw k).1 (moveRaw k).2).1 +
      (normVec (moveRaw k).1 (moveRaw k).2).2 *
        (normVec (moveRaw k).1 (moveRaw k).2).2 = 1 := by
  rcases k with ⟨w, a, sk, d, sp⟩
  cases w <;> cases a <;> cases sk <;> cases d <;>
    norm_num [moveRaw] at h1 h2 ⊢ <;>
    norm_num [normVec, vecLen, q2sqrt_zero, q2sqrt_one, q2sqrt_two,
      Q2.mk_eq_zero, Q2.mk_eq_one, Q2.one_def, Q2.mul_def, Q2.inv_def,
      Q2.div_def, Q2.ofRat, Q2.mk.injEq, Q2.add_def]

theorem writtenXZ_speed (k : Keys) :
    ((¬ vecLen (moveRaw k).1 (moveRaw k).2 = 0) →
      (writtenXZJS k).1 * (writtenXZJS k).1 +
        (writtenXZJS k).2 * (writtenXZJS k).2 = Q2.ofRat 25) ∧
    ((¬ (moveRaw k).1 = 0 ∨ ¬ (moveRaw k).2 = 0) →
      (writtenXZP1 k).1 * (writtenXZP1 k).1 +
        (writtenXZP1 k).2 * (writtenXZP1 k).2 = Q2.ofRat 25) := by
  rcases k with ⟨w, a, sk, d, sp⟩
  cases w <;> cases a <;> cases sk <;> cases d <;>
    constructor <;> intro h <;>
    norm_num [moveRaw, writtenXZJS, writtenXZP1, p1Norm, p1Moving,
      vecLen, normVec, normalizeScale, q2sqrt_zero, q2sqrt_one, q2sqrt_two,
      Q2.mk_eq_zero, Q2.mk_eq_one, Q2.one_def, Q2.mul_def, Q2.inv_def,
      Q2.div_def, Q2.ofRat, Q2.mk.injEq, Q2.add_def] at h ⊢

/-- C4: for every assignment of the four directional flags the raw movement
intention is the additive combination (w contributes -1 to z, s +1 to z, a
-1 to x, d +1 to x), so opposite flags cancel an axis to exactly zero;
whenever the vector is non-zero on both axes the normalised vector has unit
magnitude (squared magnitude 1); and whenever the controller writes a
non-zero horizontal velocity, its squared magnitude equals moveSpeed² = 25
in both variants, so diagonal and axial input produce the same horizontal
speed. -/
theorem movement_intention_normalization (s : PState) (δ : ℚ) (inp : BodyIn) :
    (moveRaw s.keys).1
      = (if s.keys.d = true then (1:ℚ) else 0)
        - (if s.keys.a = true then 1 else 0) ∧
    (moveRaw s.keys).2
      = (if s.keys.s = true then (1:ℚ) else 0)
        - (if s.keys.w = true then 1 else 0) ∧
    (s.keys.a = s.keys.d → (moveRaw s.keys).1 = 0) ∧
    (s.keys.w = s.keys.s → (moveRaw s.keys).2 = 0) ∧
    (¬ (moveRaw s.keys).1 = 0 → ¬ (moveRaw s.keys).2 = 0 →
      (normVec (moveRaw s.keys).1 (moveRaw s.keys).2).1 *
          (normVec (moveRaw s.keys).1 (moveRaw s.keys).2).1 +
        (normVec (moveRaw s.keys).1 (moveRaw s.keys).2).2 *
          (normVec (moveRaw s.keys).1 (moveRaw s.keys).2).2 = 1) ∧
    (¬ vecLen (moveRaw s.keys).1 (moveRaw s.keys).2 = 0 →
      linvelSq (PlayerJS.update s δ inp).2 = [Q2.ofRat 25]) ∧
    ((¬ (moveRaw s.keys).1 = 0 ∨ ¬ (moveRaw s.keys).2 = 0) →
      linvelSq (Part001.update s δ inp).2 = [Q2.ofRat 25]) := by
  refine ⟨(moveRaw_additive s.keys).1, (moveRaw_additive s.keys).2,
    ?_, ?_, normVec_unit s.keys, ?_, ?_⟩
  · intro h
    rw [(moveRaw_additive s.keys).1, h, sub_self]
  · intro h
    rw [(moveRaw_additive s.keys).2, h, sub_self]
  · intro h
    rw [updateJS_linvelSq, (writtenXZ_speed s.keys).1 h]
  · intro h
    rw [updateP1_linvelSq, (writtenXZ_speed s.keys).2 h]

/-- C4 witness: with forward and left held (a diagonal input), the
normalised intention has unit squared magnitude and both variants write a
horizontal velocity of squared magnitude 25 = moveSpeed². -/
theorem movement_intention_normalization_witness :
    ((normVec (moveRaw ⟨true, true, false, false, false⟩).1
          (moveRaw ⟨true, true, false, false, false⟩).2).1 *
        (normVec (moveRaw ⟨true, true, false, false, false⟩).1
          (moveRaw ⟨true, true, false, false, false⟩).2).1 +
      (normVec (moveRaw ⟨true, true, false, false, false⟩).1
          (moveRaw ⟨true, true, false, false, false⟩).2).2 *
        (normVec (moveRaw ⟨true, true, false, false, false⟩).1
          (moveRaw ⟨true, true, false, false, false⟩).2).2 = 1) ∧
    linvelSq (PlayerJS.update
      ⟨⟨true, true, false, false, false⟩, false, false, [], none, 0, 0, 1, 0⟩
      1 ⟨0, 0, 0, 0, 1, 0⟩).2 = [Q2.ofRat 25] ∧
    linvelSq (Part001.update
      ⟨⟨true, true, false, false, false⟩, false, false, [], none, 0, 0, 1, 0⟩
      1 ⟨0, 0, 0, 0, 1, 0⟩).2 = [Q2.ofRat 25] := by
  have h := movement_intention_normalization
    ⟨⟨true, true, false, false, false⟩, false, false, [], none, 0, 0, 1, 0⟩
    1 ⟨0, 0, 0, 0, 1, 0⟩
  refine ⟨h.2.2.2.2.1 ?_ ?_, h.2.2.2.2.2.1 ?_, h.2.2.2.2.2.2 (Or.inl ?_)⟩
  · norm_num [moveRaw]
  · norm_num [moveRaw]
  · norm_num [moveRaw, vecLen, q2sqrt_two, Q2.mk_eq_zero]
  · norm_num [moveRaw]

theorem playFound_go (s : PState) (k : String) (d : ℚ) (c : String)
    (hc : s.current = some c) (hck : ¬ c = k) :
    (playFound s k d).1.current = some k ∧
    (playFound s k d).2 = [Ev.crossFade c k d, Ev.play k] := by
  have hcond : ¬ (s.current = some k) := by
    rw [hc]
    exact fun h => hck (Option.some.inj h)
  unfold playFound
  rw [if_neg hcond, hc]
  exact ⟨rfl, rfl⟩

theorem playAnimationJS_go (s : PState) (n : String) (d : ℚ) (k c : String)
    (hres : resolveName s.actions n = some k)
    (hc : s.current = some c) (hck : ¬ c = k) :
    (PlayerJS.playAnimation s n d).1.current = some k ∧
    (PlayerJS.playAnimation s n d).2 = [Ev.crossFade c k d, Ev.play k] := by
  unfold PlayerJS.playAnimation
  rw [hres]
  exact playFound_go s k d c hc hck

theorem playAnimationP1_go (s : PState) (n : String) (d : ℚ) (k c : String)
    (hres : resolveName s.actions n = some k)
    (hc : s.current = some c) (hck : ¬ c = k) :
    (Part001.playAnimation s n d).1.current = some k ∧
    (Part001.playAnimation s n d).2 = [Ev.crossFade c k d, Ev.play k] := by
  unfold Part001.playAnimation
  rw [hres]
  exact playFound_go s k d c hc hck

theorem uasJS_landing_run (st : PState) (wm : Bool) (k c : String)
    (hmov : st.isMoving = true) (hj : st.isJumping = false)
    (hrun : (lookupAction st.actions "run").isSome = true)
    (hres : resolveName st.actions "run" = some k)
    (hc : st.current = some c) (hck : ¬ c = k) :
    (PlayerJS.updateAnimationState st wm true).1.current = some k ∧
    (PlayerJS.updateAnimationState st wm true).2
      = [Ev.crossFade c k (3/10), Ev.play k] := by
  unfold PlayerJS.updateAnimationState
  rw [if_neg (by simp [hj]), if_pos ⟨hj, rfl⟩, if_pos hmov, if_pos hrun]
  exact playAnimationJS_go st "run" (3/10) k c hres hc hck

theorem uasJS_landing_idle (st : PState) (wm : Bool) (k c : String)
    (hmov : st.isMoving = false) (hj : st.isJumping = false)
    (hidle : (lookupAction st.actions "idle").isSome = true)
    (hres : resolveName st.actions "idle" = some k)
    (hc : st.current = some c) (hck : ¬ c = k) :
    (PlayerJS.updateAnimationState st wm true).1.current = some k ∧
    (PlayerJS.updateAnimationState st wm true).2
      = [Ev.crossFade c k (3/10), Ev.play k] := by
  unfold PlayerJS.updateAnimationState
  rw [if_neg (by simp [hj]), if_pos ⟨hj, rfl⟩, if_neg (by simp [hmov]),
    if_pos hidle]
  exact playAnimationJS_go st "idle" (3/10) k c hres hc hck

theorem uasP1_landing_walk (st : PState) (wm : Bool) (k c : String)
    (hmov : st.isMoving = true) (hj : st.isJumping = false)
    (hres : resolveName st.actions "walk" = some k)
    (hc : st.current = some c) (hck : ¬ c = k) :
    (Part001.updateAnimationState st wm true).1.current = some k ∧
    (Part001.updateAnimationState st wm true).2
      = [Ev.crossFade c k (3/10), Ev.play k] := by
  unfold Part001.updateAnimationState
  rw [if_neg (by simp [hj]), if_pos ⟨hj, rfl⟩, if_pos hmov]
  exact playAnimationP1_go st "walk" (3/10) k c hres hc hck

theorem updateJS_landing_run (s : PState) (δ : ℚ) (inp : BodyIn) (k c : String)
    (hJ : s.isJumping = true) (hv : |inp.velY| ≤ 1/2)
    (hsp : s.keys.space = false)
    (hm : ¬ vecLen (moveRaw s.keys).1 (moveRaw s.keys).2 = 0)
    (hrun : (lookupAction s.actions "run").isSome = true)
    (hres : resolveName s.actions "run" = some k)
    (hc : s.current = some c) (hck : ¬ c = k) :
    (PlayerJS.update s δ inp).1.isMoving = true ∧
    (PlayerJS.update s δ inp).1.isJumping = false ∧
    (PlayerJS.update s δ inp).1.current = some k ∧
    Ev.crossFade c k (3/10) ∈ (PlayerJS.update s δ inp).2 ∧
    Ev.play k ∈ (PlayerJS.update s δ inp).2 := by
  simp only [PlayerJS.update, mixerStep]
  rw [hJ]
  have hmv : decide (¬ vecLen (moveRaw s.keys).1 (moveRaw s.keys).2 = 0)
      = true := decide_eq_true hm
  have hjp : decide ((1:ℚ)/2 < |inp.velY|) = false :=
    decide_eq_false (not_lt.mpr hv)
  rw [hmv, hjp]
  have huas := uasJS_landing_run
    ⟨s.keys, true, false, s.actions, s.current, s.mixerTime + δ,
      s.containerX, s.containerY, s.containerZ⟩
    s.isMoving k c rfl rfl hrun hres hc hck
  have hkeys := uasJS_keys
    ⟨s.keys, true, false, s.actions, s.current, s.mixerTime + δ,
      s.containerX, s.containerY, s.containerZ⟩
    s.isMoving true
  have hflags := uasJS_flags
    ⟨s.keys, true, false, s.actions, s.current, s.mixerTime + δ,
      s.containerX, s.containerY, s.containerZ⟩
    s.isMoving true
  rw [if_neg (by rw [hkeys]; simp [hsp])]
  refine ⟨?_, ?_, ?_, ?_, ?_⟩
  · simpa using hflags.1
  · simpa using hflags.2
  · simpa using huas.1
  · simp [huas.2]
  · simp [huas.2]

theorem updateJS_landing_idle (s : PState) (δ : ℚ) (inp : BodyIn) (k c : String)
    (hJ : s.isJumping = true) (hv : |inp.velY| ≤ 1/2)
    (hsp : s.keys.space = false)
    (hm : vecLen (moveRaw s.keys).1 (moveRaw s.keys).2 = 0)
    (hidle : (lookupAction s.actions "idle").isSome = true)
    (hres : resolveName s.actions "idle" = some k)
    (hc : s.current = some c) (hck : ¬ c = k) :
    (PlayerJS.update s δ inp).1.isMoving = false ∧
    (PlayerJS.update s δ inp).1.isJumping = false ∧
    (PlayerJS.update s δ inp).1.current = some k ∧
    Ev.crossFade c k (3/10) ∈ (PlayerJS.update s δ inp).2 := by
  simp only [PlayerJS.update, mixerStep]
  rw [hJ]
  have hmv : decide (¬ vecLen (moveRaw s.keys).1 (moveRaw s.keys).2 = 0)
      = false := decide_eq_false (not_not_intro hm)
  have hjp : decide ((1:ℚ)/2 < |inp.velY|) = false :=
    decide_eq_false (not_lt.mpr hv)
  rw [hmv, hjp]
  have huas := uasJS_landing_idle
    ⟨s.keys, false, false, s.actions, s.current, s.mixerTime + δ,
      s.containerX, s.containerY, s.containerZ⟩
    s.isMoving k c rfl rfl hidle hres hc hck
  have hkeys := uasJS_keys
    ⟨s.keys, false, false, s.actions, s.current, s.mixerTime + δ,
      s.containerX, s.containerY, s.containerZ⟩
    s.isMoving true
  have hflags := uasJS_flags
    ⟨s.keys, false, false, s.actions, s.current, s.mixerTime + δ,
      s.containerX, s.containerY, s.containerZ⟩
    s.isMoving true
  rw [if_neg (by rw [hkeys]; simp [hsp])]
  refine ⟨?_, ?_, ?_, ?_⟩
  · simpa using hflags.1
  · simpa using hflags.2
  · simpa using huas.1
  · simp [huas.2]

theorem updateP1_landing_walk (s : PState) (δ : ℚ) (inp : BodyIn) (k c : String)
    (hJ : s.isJumping = true) (hsp : s.keys.space = false)
    (hv1 : |inp.velY| < 1/10) (hv2 : inp.posY < 11/10)
    (hm : p1Moving s.keys = true)
    (hres : resolveName s.actions "walk" = some k)
    (hc : s.current = some c) (hck : ¬ c = k) :
    (Part001.update s δ inp).1.current = some k ∧
    Ev.crossFade c k (3/10) ∈ (Part001.update s δ inp).2 ∧
    Ev.play k ∈ (Part001.update s δ inp).2 := by
  simp only [Part001.update, mixerStep]
  rw [hJ, hsp, hm]
  have hong : decide (|inp.velY| < 1/10 ∧ inp.posY < 11/10) = true :=
    decide_eq_true ⟨hv1, hv2⟩
  rw [hong]
  simp only [Bool.and_false, Bool.false_eq_true, if_false, if_true]
  have huas := uasP1_landing_walk
    ⟨s.keys, true, false, s.actions, s.current, s.mixerTime,
      inp.posX, inp.posY, inp.posZ⟩
    s.isMoving k c rfl rfl hres hc hck
  rw [huas.1, huas.2]
  refine ⟨rfl, ?_, ?_⟩ <;> simp

/-- C5 (amended): on a landing tick (previous state Airborne, airborne test
now false, jump key not pressed) the two variants differ.  In
src/src/Player.js, with non-zero horizontal intention the next state is
Moving and the controller cross-fades to the run action when an exact run
action exists (preferring run; the resolved key is played and becomes
current), and with zero intention the next state is Idle and it cross-fades
to idle.  The part_001 variant instead always requests walk when moving on
landing — never run — cross-fading to the first key matching walk. -/
theorem landing_transition (s : PState) (δ : ℚ) (inp : BodyIn) (k c : String) :
    (s.isJumping = true → |inp.velY| ≤ 1/2 → s.keys.space = false →
      ¬ vecLen (moveRaw s.keys).1 (moveRaw s.keys).2 = 0 →
      (lookupAction s.actions "run").isSome = true →
      resolveName s.actions "run" = some k →
      s.current = some c → ¬ c = k →
      (PlayerJS.update s δ inp).1.isMoving = true ∧
      (PlayerJS.update s δ inp).1.isJumping = false ∧
      (PlayerJS.update s δ inp).1.current = some k ∧
      Ev.crossFade c k (3/10) ∈ (PlayerJS.update s δ inp).2 ∧
      Ev.play k ∈ (PlayerJS.update s δ inp).2) ∧
    (s.isJumping = true → |inp.velY| ≤ 1/2 → s.keys.space = false →
      vecLen (moveRaw s.keys).1 (moveRaw s.keys).2 = 0 →
      (lookupAction s.actions "idle").isSome = true →
      resolveName s.actions "idle" = some k →
      s.current = some c → ¬ c = k →
      (PlayerJS.update s δ inp).1.isMoving = false ∧
      (PlayerJS.update s δ inp).1.isJumping = false ∧
      (PlayerJS.update s δ inp).1.current = some k ∧
      Ev.crossFade c k (3/10) ∈ (PlayerJS.update s δ inp).2) ∧
    (s.isJumping = true → s.keys.space = false →
      |inp.velY| < 1/10 → inp.posY < 11/10 →
      p1Moving s.keys = true →
      resolveName s.actions "walk" = some k →
      s.current = some c → ¬ c = k →
      (Part001.update s δ inp).1.current = some k ∧
      Ev.crossFade c k (3/10) ∈ (Part001.update s δ inp).2 ∧
      Ev.play k ∈ (Part001.update s δ inp).2) := by
  refine ⟨?_, ?_, ?_⟩
  · intro hJ hv hsp hm hrun hres hc hck
    exact updateJS_landing_run s δ inp k c hJ hv hsp hm hrun hres hc hck
  · intro hJ hv hsp hm hidle hres hc hck
    exact updateJS_landing_idle s δ inp k c hJ hv hsp hm hidle hres hc hck
  · intro hJ hsp hv1 hv2 hm hres hc hck
    exact updateP1_landing_walk s δ inp k c hJ hsp hv1 hv2 hm hres hc hck

/-- C5 counterexample: the claim that landing with non-zero intention
switches to walk or run preferring run is false for the part_001 variant —
landing while moving with actions {idle, walk, run} (run available) it still
requests walk: the current action becomes walk, not run. -/
theorem part001_landing_ignores_run_cex :
    (Part001.update
      ⟨⟨true, false, false, false, false⟩, false, true,
        [("idle", ⟨0, true, 1⟩), ("walk", ⟨0, false, 1⟩),
          ("run", ⟨0, false, 1⟩)], some "idle", 0, 0, 1, 0⟩
      1 ⟨0, 0, 0, 0, 1, 0⟩).1.current = some "walk" ∧
    (lookupAction
      [("idle", (⟨0, true, 1⟩ : ActionRec)), ("walk", ⟨0, false, 1⟩),
        ("run", ⟨0, false, 1⟩)] "run").isSome = true ∧
    ¬ some "walk" = some "run" := by
  refine ⟨?_, by decide, by decide⟩
  exact (updateP1_landing_walk
    ⟨⟨true, false, false, false, false⟩, false, true,
      [("idle", ⟨0, true, 1⟩), ("walk", ⟨0, false, 1⟩),
        ("run", ⟨0, false, 1⟩)], some "idle", 0, 0, 1, 0⟩
    1 ⟨0, 0, 0, 0, 1, 0⟩ "walk" "idle" rfl rfl (by norm_num) (by norm_num)
    (by norm_num [p1Moving, p1Norm, moveRaw, Q2.ofRat, Q2.mk_eq_zero])
    (by decide) rfl (by decide)).1

/-- C5 witness: a landing tick while moving forward with idle current and
run available cross-fades to run in src/src/Player.js; a stationary landing
cross-fades to idle; and the part_001 variant on a moving landing
cross-fades to walk. -/
theorem landing_transition_witness :
    (PlayerJS.update
      ⟨⟨true, false, false, false, false⟩, false, true,
        [("idle", ⟨0, true, 1⟩), ("walk", ⟨0, false, 1⟩),
          ("run", ⟨0, false, 1⟩)], some "idle", 0, 0, 1, 0⟩
      1 ⟨0, 0, 0, 0, 1, 0⟩).1.current = some "run" ∧
    (PlayerJS.update
      ⟨⟨false, false, false, false, false⟩, false, true,
        [("idle", ⟨0, false, 1⟩), ("run", ⟨0, true, 1⟩)], some "run",
        0, 0, 1, 0⟩
      1 ⟨0, 0, 0, 0, 1, 0⟩).1.current = some "idle" ∧
    (Part001.update
      ⟨⟨true, false, false, false, false⟩, false, true,
        [("idle", ⟨0, true, 1⟩), ("walk", ⟨0, false, 1⟩),
          ("run", ⟨0, false, 1⟩)], some "idle", 0, 0, 1, 0⟩
      1 ⟨0, 0, 0, 0, 1, 0⟩).1.current = some "walk" := by
  refine ⟨?_, ?_, ?_⟩
  · exact ((landing_transition
      ⟨⟨true, false, false, false, false⟩, false, true,
        [("idle", ⟨0, true, 1⟩), ("walk", ⟨0, false, 1⟩),
          ("run", ⟨0, false, 1⟩)], some "idle", 0, 0, 1, 0⟩
      1 ⟨0, 0, 0, 0, 1, 0⟩ "run" "idle").1 rfl (by norm_num) rfl
      (by norm_num [moveRaw, vecLen, q2sqrt_one, Q2.mk_eq_zero])
      (by decide) (by decide) rfl (by decide)).2.2.1
  · exact ((landing_transition
      ⟨⟨false, false, false, false, false⟩, false, true,
        [("idle", ⟨0, false, 1⟩), ("run", ⟨0, true, 1⟩)], some "run",
        0, 0, 1, 0⟩
      1 ⟨0, 0, 0, 0, 1, 0⟩ "idle" "run").2.1 rfl (by norm_num) rfl
      (by norm_num [moveRaw, vecLen, q2sqrt_zero]; exact Q2.zero_def.symm)
      (by decide) (by decide) rfl (by decide)).2.2.1
  · exact ((landing_transition
      ⟨⟨true, false, false, false, false⟩, false, true,
        [("idle", ⟨0, true, 1⟩), ("walk", ⟨0, false, 1⟩),
          ("run", ⟨0, false, 1⟩)], some "idle", 0, 0, 1, 0⟩
      1 ⟨0, 0, 0, 0, 1, 0⟩ "walk" "idle").2.2 rfl rfl (by norm_num)
      (by norm_num)
      (by norm_num [p1Moving, p1Norm, moveRaw, Q2.ofRat, Q2.mk_eq_zero])
      (by decide) rfl (by decide)).1

end Capy
